import Mathlib

/-!
Verification development for the Kiro (AWS CodeWhisperer) provider of the
CLIProxyAPI repository: the token data model (`internal/auth/kiro/kiro.go`,
token storage), the refresh driver (`internal/auth/kiro/kiro_auth.go`), and
the Kiro executor (`internal/runtime/executor/kiro_executor.go`): request
construction, the 403 retry path, the streaming dedup loop, the event-stream
recognizer and the token estimator. Go strings are modelled as Lean `String`
(byte lengths via `String.utf8ByteSize`), machine integers as `Nat`/`Int`,
maps as association lists, and wall-clock instants as integer seconds.
-/

namespace CLIProxy

/-- Token bundle for one Kiro account, mirroring `KiroTokenData` of
`internal/auth/kiro/kiro.go` (all fields are Go strings; absent JSON fields
are the empty string). -/
structure KiroTokenData where
  accessToken : String
  refreshToken : String
  clientID : String
  clientSecret : String
  authMethod : String
  expiresAt : String
  profileArn : String
  region : String
deriving DecidableEq, Repr

/-- Persistent form of the token bundle, mirroring `KiroTokenStorage` of the
kiro storage file (field `Type` is rendered `storageType` since `type` is a
Lean keyword). -/
structure KiroTokenStorage where
  accessToken : String
  refreshToken : String
  clientID : String
  clientSecret : String
  authMethod : String
  expiresAt : String
  profileArn : String
  region : String
  lastRefresh : String
  storageType : String
deriving DecidableEq, Repr

/-- Mirrors `FromTokenData` of the kiro storage file: wraps a `KiroTokenData`
together with a last-refresh stamp into a `KiroTokenStorage` tagged "kiro". -/
def FromTokenData (td : KiroTokenData) (lastRefresh : String) : KiroTokenStorage :=
  { accessToken := td.accessToken
    refreshToken := td.refreshToken
    clientID := td.clientID
    clientSecret := td.clientSecret
    authMethod := td.authMethod
    expiresAt := td.expiresAt
    profileArn := td.profileArn
    region := td.region
    lastRefresh := lastRefresh
    storageType := "kiro" }

/-- Mirrors `KiroTokenStorage.ToTokenData` of the kiro storage file. -/
def KiroTokenStorage.ToTokenData (ts : KiroTokenStorage) : KiroTokenData :=
  { accessToken := ts.accessToken
    refreshToken := ts.refreshToken
    clientID := ts.clientID
    clientSecret := ts.clientSecret
    authMethod := ts.authMethod
    expiresAt := ts.expiresAt
    profileArn := ts.profileArn
    region := ts.region }

/-- Constants table for the Kiro provider, mirroring `KiroConstants` and
`DefaultConstants` of `internal/auth/kiro/kiro.go`. -/
structure KiroConstants where
  refreshURL : String
  refreshIDCURL : String
  baseURL : String
  amazonQURL : String
  usageLimitsURL : String
  defaultModel : String
  userAgent : String
  kiroVersion : String
deriving DecidableEq, Repr

/-- Mirrors `DefaultConstants` of `internal/auth/kiro/kiro.go`. -/
def DefaultConstants : KiroConstants :=
  { refreshURL := "https://prod.\x7b\x7bregion\x7d\x7d.auth.desktop.kiro.dev/refreshToken"
    refreshIDCURL := "https://oidc.\x7b\x7bregion\x7d\x7d.amazonaws.com/token"
    baseURL := "https://codewhisperer.\x7b\x7bregion\x7d\x7d.amazonaws.com/generateAssistantResponse"
    amazonQURL := "https://codewhisperer.\x7b\x7bregion\x7d\x7d.amazonaws.com/SendMessageStreaming"
    usageLimitsURL := "https://q.\x7b\x7bregion\x7d\x7d.amazonaws.com/getUsageLimits"
    defaultModel := "claude-opus-4-5"
    userAgent := "KiroIDE"
    kiroVersion := "0.7.5" }

/-- Mirrors the constant `AuthMethodSocial = "social"`. -/
def AuthMethodSocial : String := "social"

/-- Mirrors the constant `OriginAIEditor = "AI_EDITOR"`. -/
def OriginAIEditor : String := "AI_EDITOR"

/-- Worker for `replaceAll`: leftmost non-overlapping replacement of `pat`
inside the subject list, the replacement text never rescanned, exactly the
semantics of Go `strings.ReplaceAll` for a non-empty pattern.  Fuelled so the
recursion is structural; fuel = subject length suffices. -/
def replaceAllAux : Nat → List Char → List Char → List Char → List Char
  | 0, s, _, _ => s
  | _ + 1, [], _, _ => []
  | n + 1, c :: rest, pat, rep =>
    if pat.isPrefixOf (c :: rest) then
      rep ++ replaceAllAux n ((c :: rest).drop pat.length) pat rep
    else
      c :: replaceAllAux n rest pat rep

/-- Model of Go `strings.ReplaceAll` on strings (for a non-empty pattern). -/
def replaceAll (s pat rep : String) : String :=
  ⟨replaceAllAux s.data.length s.data pat.data rep.data⟩

/-- Request body sent by the refresh driver, mirroring `refreshTokenRequest`
of `internal/auth/kiro/kiro_auth.go`; fields tagged `omitempty` are omitted
from the JSON exactly when they are the empty string. -/
structure RefreshTokenRequest where
  refreshToken : String
  clientId : String
  clientSecret : String
  grantType : String
deriving DecidableEq, Repr

/-- Region used by `KiroAuth.RefreshTokens`: the account region, defaulting to
"us-east-1" when unset. -/
def refreshRegion (td : KiroTokenData) : String :=
  if td.region = "" then "us-east-1" else td.region

/-- Endpoint and body computed by `KiroAuth.RefreshTokens`
(`internal/auth/kiro/kiro_auth.go` lines 231-268) before the HTTP exchange:
fails when the refresh token is empty, else picks the desktop
refresh endpoint for "social" auth and the OIDC token endpoint otherwise,
interpolates the region, and fills client id/secret plus
`grantType = "refresh_token"` only on the non-social path. -/
def refreshTokensRequestParts (c : KiroConstants) (td : KiroTokenData) :
    Except String (String × RefreshTokenRequest) :=
  if td.refreshToken = "" then
    .error "refresh token is required"
  else
    let region := refreshRegion td
    let url :=
      if td.authMethod = AuthMethodSocial then
        replaceAll c.refreshURL "\x7b\x7bregion\x7d\x7d" region
      else
        replaceAll c.refreshIDCURL "\x7b\x7bregion\x7d\x7d" region
    let body : RefreshTokenRequest :=
      if td.authMethod = AuthMethodSocial then
        { refreshToken := td.refreshToken, clientId := "", clientSecret := "", grantType := "" }
      else
        { refreshToken := td.refreshToken, clientId := td.clientID,
          clientSecret := td.clientSecret, grantType := "refresh_token" }
    .ok (url, body)

/-- Response of the refresh endpoint, mirroring `refreshTokenResponse` of
`internal/auth/kiro/kiro_auth.go`. -/
structure RefreshTokenResponse where
  accessToken : String
  refreshToken : String
  profileArn : String
  expiresIn : Int
deriving DecidableEq, Repr

/-- Expiry stored by a successful `KiroAuth.RefreshTokens`
(`kiro_auth.go` line 296): the wall-clock instant of the refresh plus the
upstream `expiresIn` seconds (instants modelled as integer seconds; the Go
code then renders this instant in RFC3339). -/
def kiroRefreshExpiresAt (nowSec : Int) (expiresIn : Int) : Int :=
  nowSec + expiresIn

/-! Executor-level models (kiro_executor.go). -/

/-- Value of the executor's opaque account metadata map (`map[string]any`):
the Go code reads entries with a `.(string)` type assertion, so the model
distinguishes string values from everything else. -/
inductive MetaVal where
  | str (s : String)
  | other
deriving DecidableEq, Repr

/-- Account handed to the executor, mirroring the fields of
`cliproxyauth.Auth` that `kiro_executor.go` touches. -/
structure Auth where
  id : String
  label : String
  metadata : List (String × MetaVal)
  attributes : List (String × String)
deriving DecidableEq, Repr

/-- Reads one metadata key with a Go `.(string)` assertion: a missing key or
a non-string value yields the empty string. -/
def metaStr (md : List (String × MetaVal)) (key : String) : String :=
  match md.lookup key with
  | some (.str s) => s
  | _ => ""

/-- Reads one attribute key; a missing key yields the empty string
(Go map indexing zero value). -/
def attrStr (attrs : List (String × String)) (key : String) : String :=
  (attrs.lookup key).getD ""

/-- Mirrors `kiroCredsFromAuth` of `kiro_executor.go`: rebuilds the
`KiroTokenData` from the account metadata, with region "us-east-1" unless a
non-empty region is present in the metadata, overridden by a non-empty
`region` attribute. -/
def kiroAuthCreds (a : Auth) : KiroTokenData × String :=
  let mdRegion := metaStr a.metadata "region"
  let td0 : KiroTokenData :=
    { accessToken := metaStr a.metadata "accessToken"
      refreshToken := metaStr a.metadata "refreshToken"
      clientID := metaStr a.metadata "clientId"
      clientSecret := metaStr a.metadata "clientSecret"
      authMethod := metaStr a.metadata "authMethod"
      expiresAt := metaStr a.metadata "expiresAt"
      profileArn := metaStr a.metadata "profileArn"
      region := if mdRegion = "" then "" else mdRegion }
  let region0 := if mdRegion = "" then "us-east-1" else mdRegion
  let attrRegion := attrStr a.attributes "region"
  if attrRegion = "" then (td0, region0)
  else ({ td0 with region := attrRegion }, attrRegion)

/-- Sets a key in the metadata association list (Go map assignment: replaces
an existing entry, otherwise appends). -/
def metaSet (md : List (String × MetaVal)) (key : String) (v : MetaVal) :
    List (String × MetaVal) :=
  if md.lookup key = none then md ++ [(key, v)]
  else md.map fun kv => if kv.1 = key then (key, v) else kv

/-- Mirrors `KiroExecutor.Refresh` (`kiro_executor.go` lines 522-552) with the
refresh driver (`KiroAuth.RefreshTokens`) abstracted as a function from the
account's token snapshot to either an error or the rotated token data, and
the wall clock abstracted as the RFC3339 string `nowStr`: a nil account is an
error; an account without a refresh token is returned unchanged with no
error; a driver failure is propagated as the error without touching the
account; on success the metadata is rewritten with the rotated tokens. -/
def kiroExecutorRefresh (auth : Option Auth)
    (driver : KiroTokenData → Except String KiroTokenData)
    (nowStr : String) : Except String Auth :=
  match auth with
  | none => .error "kiro executor: auth is nil"
  | some a =>
    let td := (kiroAuthCreds a).1
    if td.refreshToken = "" then .ok a
    else
      match driver td with
      | .error e => .error e
      | .ok newTd =>
        let md := a.metadata
        let md := metaSet md "accessToken" (.str newTd.accessToken)
        let md := metaSet md "refreshToken" (.str newTd.refreshToken)
        let md := metaSet md "expiresAt" (.str newTd.expiresAt)
        let md := if newTd.profileArn = "" then md
                  else metaSet md "profileArn" (.str newTd.profileArn)
        let md := metaSet md "type" (.str "kiro")
        let md := metaSet md "last_refresh" (.str nowStr)
        .ok { a with metadata := md }

/-- Outcome of one `Execute`/`ExecuteStream` run, with the response
post-processing (decode, Kiro parse, translation back to the source dialect)
abstracted into the payload carried by `ok`. -/
inductive KiroExecOutcome where
  | ok (payload : String)
  | statusError (code : Nat) (msg : String)
  | fail (msg : String)
deriving DecidableEq, Repr

/-- Trace of one executor run: the outcome, the serialized upstream requests
issued in order, and how many times the refresh driver ran. -/
structure KiroExecTrace where
  outcome : KiroExecOutcome
  upstreamCalls : List String
  refreshCalls : Nat
deriving DecidableEq, Repr

/-- Mirrors the control flow of `KiroExecutor.Execute`
(`kiro_executor.go` lines 46-204) around a scripted upstream: `build`
abstracts `buildKiroRequest` applied to the already-translated canonical
Claude body, so each upstream call records the request rebuilt with the token
it was sent under; `process` abstracts decode + `parseKiroResponse` +
`TranslateNonStream`; `refreshDriver` abstracts `KiroExecutor.Refresh`
returning the rotated token snapshot; `r1`/`r2` script the first and second
upstream responses as (status, body). A non-2xx first status other than a
retryable 403 — including 429 and 5xx — is surfaced as a status error after
one call. -/
def kiroExecute (build : KiroTokenData → String) (process : String → String)
    (tok : KiroTokenData) (refreshDriver : Except String KiroTokenData)
    (r1 r2 : Nat × String) : KiroExecTrace :=
  if tok.accessToken = "" then
    { outcome := .fail "kiro executor: no access token available",
      upstreamCalls := [], refreshCalls := 0 }
  else
    let req1 := build tok
    if 200 ≤ r1.1 ∧ r1.1 < 300 then
      { outcome := .ok (process r1.2), upstreamCalls := [req1], refreshCalls := 0 }
    else if r1.1 = 403 ∧ tok.refreshToken ≠ "" then
      match refreshDriver with
      | .error _ =>
        { outcome := .statusError r1.1 r1.2, upstreamCalls := [req1], refreshCalls := 1 }
      | .ok newTok =>
        if newTok.accessToken ≠ "" then
          let req2 := build newTok
          if 200 ≤ r2.1 ∧ r2.1 < 300 then
            { outcome := .ok (process r2.2), upstreamCalls := [req1, req2],
              refreshCalls := 1 }
          else
            { outcome := .statusError r2.1 r2.2, upstreamCalls := [req1, req2],
              refreshCalls := 1 }
        else
          { outcome := .statusError r1.1 r1.2, upstreamCalls := [req1], refreshCalls := 1 }
    else
      { outcome := .statusError r1.1 r1.2, upstreamCalls := [req1], refreshCalls := 0 }

/-- Mirrors the control flow of `KiroExecutor.ExecuteStream`
(`kiro_executor.go` lines 206-305 up to `processStream`), identical retry
structure to `kiroExecute`; `processStream` abstracts the streaming decode
and event emission over the accepted response body (the retried response is
processed exactly as a first response would be). -/
def kiroExecuteStream (build : KiroTokenData → String) (processStream : String → String)
    (tok : KiroTokenData) (refreshDriver : Except String KiroTokenData)
    (r1 r2 : Nat × String) : KiroExecTrace :=
  if tok.accessToken = "" then
    { outcome := .fail "kiro executor: no access token available",
      upstreamCalls := [], refreshCalls := 0 }
  else
    let req1 := build tok
    if 200 ≤ r1.1 ∧ r1.1 < 300 then
      { outcome := .ok (processStream r1.2), upstreamCalls := [req1], refreshCalls := 0 }
    else if r1.1 = 403 ∧ tok.refreshToken ≠ "" then
      match refreshDriver with
      | .error _ =>
        { outcome := .statusError r1.1 r1.2, upstreamCalls := [req1], refreshCalls := 1 }
      | .ok newTok =>
        if newTok.accessToken ≠ "" then
          let req2 := build newTok
          if 200 ≤ r2.1 ∧ r2.1 < 300 then
            { outcome := .ok (processStream r2.2), upstreamCalls := [req1, req2],
              refreshCalls := 1 }
          else
            { outcome := .statusError r2.1 r2.2, upstreamCalls := [req1, req2],
              refreshCalls := 1 }
        else
          { outcome := .statusError r1.1 r1.2, upstreamCalls := [req1], refreshCalls := 1 }
    else
      { outcome := .statusError r1.1 r1.2, upstreamCalls := [req1], refreshCalls := 0 }

/-! Stream events (kiro_executor.go, `kiroStreamEvent` / `kiroToolUse`). -/

/-- Mirrors `kiroToolUse` of `kiro_executor.go`. -/
structure KiroToolUseEv where
  name : String
  toolUseId : String
  input : String
deriving DecidableEq, Repr

/-- Mirrors `kiroStreamEvent` of `kiro_executor.go`; `toolUse` is a pointer
in Go, hence the `Option`. -/
structure KiroStreamEvent where
  type : String
  content : String
  toolUse : Option KiroToolUseEv
  toolInput : String
  toolStop : Bool
deriving DecidableEq, Repr

/-- A text record as produced by the recognizer for `{"content": ...}`. -/
def contentEvent (s : String) : KiroStreamEvent :=
  { type := "content", content := s, toolUse := none, toolInput := "", toolStop := false }

/-- Text-delta contents emitted by the `ExecuteStream` event loop
(`kiro_executor.go` lines 369-381), threading the `lastContent` dedup state:
a record of type "content" with non-empty content is emitted unless it equals
the previous emitted content; every other record leaves the text state
untouched. -/
def kiroStreamTextDeltasAux : String → List KiroStreamEvent → List String
  | _, [] => []
  | lastContent, e :: rest =>
    if e.type = "content" ∧ e.content ≠ "" then
      if e.content = lastContent then
        kiroStreamTextDeltasAux lastContent rest
      else
        e.content :: kiroStreamTextDeltasAux e.content rest
    else
      kiroStreamTextDeltasAux lastContent rest

/-- Text-delta contents of a whole parsed event list; `lastContent` starts
out as the empty Go string. -/
def kiroStreamTextDeltas (events : List KiroStreamEvent) : List String :=
  kiroStreamTextDeltasAux "" events

/-! Claude-form request model consumed by `buildKiroRequest` and
`estimateInputTokens`.  The Go code walks the translated Claude JSON with
gjson; the model represents the shapes those walks distinguish: string
content, array-of-blocks content, object content (whose raw serialization is
what gjson's `String()`/`Raw` yield), and absent content. -/

mutual
/-- Message content as dispatched by `content.IsArray()` / `content.Type`. -/
inductive CContent where
  | cstr (s : String)
  | cblocks (bs : List CBlock)
  | cobj (raw : String)
  | cmissing

/-- One content block; `raw` fields carry the serialized form of parts the Go
code reads through `.Raw` (tool_use input, unknown blocks). -/
inductive CBlock where
  | text (s : String)
  | image (mediaType : String) (data : String)
  | imageUrl (raw : String)
  | toolUse (id : String) (name : String) (input : Option String)
  | toolResult (toolUseId : String) (content : CContent)
  | thinking (s : String)
  | other (raw : String)
end

/-- One Claude message. -/
structure CMessage where
  role : String
  content : CContent

/-- One Claude tool definition; `input_schema` is the raw serialized schema
when present. -/
structure CTool where
  name : String
  description : String
  input_schema : Option String

/-- A translated Claude-form request as far as the Kiro executor reads it:
`system` (absent, string, or block array), `messages`, and `tools` (absent or
an array). -/
structure ClaudeRequest where
  system : Option CContent
  messages : List CMessage
  tools : Option (List CTool)

/-! Output shape of `buildKiroRequest` (the CodeWhisperer request), with
empty lists encoding JSON fields the Go code leaves absent, and the random
`conversationId` omitted. -/

/-- An image attachment of a user input message. -/
structure KImage where
  format : String
  data : String
deriving DecidableEq, Repr

/-- A tool use recorded on an assistant turn. -/
structure KToolUse where
  name : String
  toolUseId : String
  input : String
deriving DecidableEq, Repr

/-- A tool result of a user turn (`content: [{text}]`, `status: "success"`). -/
structure KToolResult where
  text : String
  status : String
  toolUseId : String
deriving DecidableEq, Repr

/-- An entry of `userInputMessageContext.tools`. -/
structure KToolSpec where
  name : String
  description : String
  inputSchema : Option String
deriving DecidableEq, Repr

/-- A `userInputMessage` object (current message or history entry). -/
structure KiroUserInputMessage where
  content : String
  modelId : String
  origin : String
  images : List KImage
  toolResults : List KToolResult
  tools : List KToolSpec
deriving DecidableEq, Repr

/-- One entry of `conversationState.history`. -/
inductive KiroHistoryEntry where
  | userInput (m : KiroUserInputMessage)
  | assistantResponse (content : String) (toolUses : List KToolUse)
deriving DecidableEq, Repr

/-- The CodeWhisperer request assembled by `buildKiroRequest`. -/
structure KiroRequest where
  history : List KiroHistoryEntry
  currentMessage : KiroUserInputMessage
  profileArn : Option String
deriving DecidableEq, Repr

/-- Mirrors the literal map `kiroModelMapping` of `kiro_executor.go`. -/
def kiroModelMapping : List (String × String) :=
  [("claude-opus-4-5", "claude-opus-4.5"),
   ("claude-opus-4-5-20251101", "claude-opus-4.5"),
   ("claude-haiku-4-5", "claude-haiku-4.5"),
   ("claude-sonnet-4-5", "CLAUDE_SONNET_4_5_20250929_V1_0"),
   ("claude-sonnet-4-5-20250929", "CLAUDE_SONNET_4_5_20250929_V1_0"),
   ("claude-sonnet-4-20250514", "CLAUDE_SONNET_4_20250514_V1_0"),
   ("claude-3-7-sonnet-20250219", "CLAUDE_3_7_SONNET_20250219_V1_0")]

/-- Model aliasing at the top of `buildKiroRequest`: mapped names translate,
unknown names pass through. -/
def mapKiroModel (model : String) : String :=
  (kiroModelMapping.lookup model).getD model

/-- Texts of the `type = "text"` blocks of a block list, in order. -/
def textParts : List CBlock → List String
  | [] => []
  | .text s :: rest => s :: textParts rest
  | _ :: rest => textParts rest

/-- Result of gjson `String()` on the non-array content shapes the model
covers (a string yields itself, an object its raw serialization, an absent
value the empty string). -/
def goString (c : CContent) : String :=
  match c with
  | .cstr s => s
  | .cobj raw => raw
  | .cmissing => ""
  | .cblocks _ => ""

/-- System prompt extraction of `buildKiroRequest`: an array concatenates its
text blocks with a newline separator, anything else is taken verbatim via
`String()`. -/
def systemPromptOf (req : ClaudeRequest) : String :=
  match req.system with
  | none => ""
  | some (.cblocks bs) => String.intercalate "\n" (textParts bs)
  | some c => goString c

/-- Characters after the first slash of the media type, if any. -/
def afterSlash : List Char → Option (List Char)
  | [] => none
  | '/' :: rest => some rest
  | _ :: rest => afterSlash rest

/-- Image format derived from the media type (`"png"` when the media type
has no slash). -/
def imageFormatOf (mediaType : String) : String :=
  match afterSlash mediaType.data with
  | some rest => ⟨rest⟩
  | none => "png"

/-- Tool-result text extraction: an array concatenates its text blocks with
no separator, anything else is taken via `String()`. -/
def toolResultText (c : CContent) : String :=
  match c with
  | .cblocks bs => String.join (textParts bs)
  | c => goString c

/-- The per-message component split of `buildKiroRequest`, mirroring its
local `processedMsg` struct. -/
structure PMsg where
  role : String
  content : String
  toolUses : List KToolUse
  toolResults : List KToolResult
  images : List KImage
deriving DecidableEq, Repr

/-- Folds one content block into the running component split: text
accumulates, tool uses / tool results / images append, all other block types
are ignored.  The Go code re-marshals a tool use's input as a JSON value;
the model keeps its raw string (or the empty-object serialization when absent), which the claims
never inspect. -/
def pmAddBlock (pm : PMsg) : CBlock → PMsg
  | .text s => { pm with content := pm.content ++ s }
  | .toolUse id name input =>
    { pm with toolUses := pm.toolUses ++
        [{ name := name, toolUseId := id, input := input.getD "\x7b\x7d" }] }
  | .toolResult id c =>
    { pm with toolResults := pm.toolResults ++
        [{ text := toolResultText c, status := "success", toolUseId := id }] }
  | .image mediaType data =>
    { pm with images := pm.images ++
        [{ format := imageFormatOf mediaType, data := data }] }
  | .imageUrl _ => pm
  | .thinking _ => pm
  | .other _ => pm

/-- Splits one Claude message into components (text, tool uses, tool
results, images); non-array content is taken via `String()`. -/
def processMessage (m : CMessage) : PMsg :=
  match m.content with
  | .cblocks bs =>
    bs.foldl pmAddBlock
      { role := m.role, content := "", toolUses := [], toolResults := [], images := [] }
  | c => { role := m.role, content := goString c, toolUses := [], toolResults := [],
           images := [] }

/-- Tail dedup of `buildKiroRequest`: a final assistant message whose trimmed
text is exactly "\x7b" is dropped. -/
def dropTrailingBrace (msgs : List PMsg) : List PMsg :=
  match msgs.getLast? with
  | some last =>
    if last.role = "assistant" ∧ last.content.trim = "\x7b" then msgs.dropLast else msgs
  | none => msgs

/-- Merging one message into another of the same role: texts joined with a
newline, component arrays appended. -/
def mergePM (a b : PMsg) : PMsg :=
  { role := a.role
    content := a.content ++ "\n" ++ b.content
    toolUses := a.toolUses ++ b.toolUses
    toolResults := a.toolResults ++ b.toolResults
    images := a.images ++ b.images }

/-- Run accumulator of the adjacent-same-role merge (equivalent to the Go
loop that merges each message into the last accumulated one). -/
def mergeRun : PMsg → List PMsg → List PMsg
  | cur, [] => [cur]
  | cur, m :: rest =>
    if m.role = cur.role then mergeRun (mergePM cur m) rest else cur :: mergeRun m rest

/-- Adjacent-same-role merge of `buildKiroRequest`. -/
def mergeAdjacent : List PMsg → List PMsg
  | [] => []
  | m :: rest => mergeRun m rest

/-- The merged message list `buildKiroRequest` works from. -/
def mergedOf (req : ClaudeRequest) : List PMsg :=
  mergeAdjacent (dropTrailingBrace (req.messages.map processMessage))

/-- Mirrors `dedupeToolResults`: keeps the first tool result of each
tool-use id. -/
def dedupeToolResultsAux (seen : List String) : List KToolResult → List KToolResult
  | [] => []
  | r :: rest =>
    if r.toolUseId ∈ seen then dedupeToolResultsAux seen rest
    else r :: dedupeToolResultsAux (r.toolUseId :: seen) rest

/-- Mirrors `dedupeToolResults` of `kiro_executor.go` (every constructed tool
result carries a string `toolUseId`). -/
def dedupeToolResults (results : List KToolResult) : List KToolResult :=
  dedupeToolResultsAux [] results

/-- The `userInputMessageContext.tools` entries derived from the request's
tool definitions. -/
def toolsContextOf (req : ClaudeRequest) : List KToolSpec :=
  match req.tools with
  | none => []
  | some ts => ts.map fun t =>
      { name := t.name, description := t.description, inputSchema := t.input_schema }

/-- System-prompt handling of `buildKiroRequest`: when a system prompt exists
and the first merged message is a user turn, a history entry folding
`system + "\n\n"` into that user's text is emitted and the start index moves
past it; otherwise a-non-empty system prompt becomes a standalone synthetic
user history entry. -/
def historyPrefixOf (sp : String) (kiroModel : String) (merged : List PMsg) :
    List KiroHistoryEntry × Nat :=
  match merged with
  | m0 :: _ =>
    if sp ≠ "" ∧ m0.role = "user" then
      ([.userInput { content := sp ++ "\n\n" ++ m0.content, modelId := kiroModel,
                     origin := OriginAIEditor, images := m0.images,
                     toolResults := dedupeToolResults m0.toolResults, tools := [] }], 1)
    else if sp ≠ "" then
      ([.userInput { content := sp, modelId := kiroModel, origin := OriginAIEditor,
                     images := [], toolResults := [], tools := [] }], 0)
    else ([], 0)
  | [] =>
    if sp ≠ "" then
      ([.userInput { content := sp, modelId := kiroModel, origin := OriginAIEditor,
                     images := [], toolResults := [], tools := [] }], 0)
    else ([], 0)

/-- History entry for one merged message between the start index and the
final message: user and assistant turns are recorded, other roles dropped. -/
def histEntryOf (kiroModel : String) (pm : PMsg) : Option KiroHistoryEntry :=
  if pm.role = "user" then
    some (.userInput { content := pm.content, modelId := kiroModel,
                       origin := OriginAIEditor, images := pm.images,
                       toolResults := dedupeToolResults pm.toolResults, tools := [] })
  else if pm.role = "assistant" then
    some (.assistantResponse pm.content pm.toolUses)
  else none

/-- History entries for the merged messages strictly between the start index
and the final message. -/
def historyMidOf (kiroModel : String) (merged : List PMsg) (startIndex : Nat) :
    List KiroHistoryEntry :=
  ((merged.drop startIndex).dropLast).filterMap (histEntryOf kiroModel)

/-- Current-message extraction of `buildKiroRequest`: the final merged
message becomes the current turn; a final assistant turn is pushed to
history and replaced by a synthetic "Continue" user turn.  Returns (raw
content, raw tool results, images, trailing history entries). -/
def currentRawOf (merged : List PMsg) :
    String × List KToolResult × List KImage × List KiroHistoryEntry :=
  match merged.getLast? with
  | none => ("", [], [], [])
  | some lastMsg =>
    if lastMsg.role = "assistant" then
      ("Continue", [], [], [.assistantResponse lastMsg.content lastMsg.toolUses])
    else
      (lastMsg.content, lastMsg.toolResults, lastMsg.images, [])

/-- Empty-content guard of `buildKiroRequest` (upstream rejects empty
content): an empty current content becomes "Tool results provided." when the
turn carries tool results and "Continue" otherwise. -/
def kiroGuardedContent (raw : String) (toolResults : List KToolResult) : String :=
  if raw = "" then
    (if toolResults ≠ [] then "Tool results provided." else "Continue")
  else raw

/-! The AWS Event-Stream JSON recognizer
(`KiroExecutor.parseKiroStreamBuffer`, `kiro_executor.go` lines 997-1153).
Buffers are modelled as `List Char` standing for the Go byte string (the
upstream payloads are ASCII); `encoding/json.Unmarshal` into
`map[string]interface \x7b\x7d` is modelled by an executable JSON parser
producing an association list of `JVal`s. -/

/-- A parsed JSON value as far as the record classification inspects it. -/
inductive JVal where
  | jnull
  | jbool (b : Bool)
  | jnum (raw : List Char)
  | jstr (s : String)
  | jarr (xs : List JVal)
  | jobj (fields : List (String × JVal))

/-- First index at or after which `pat` is a prefix of the scanned list
(Go `strings.Index` with a non-empty pattern). -/
def indexOfPatAux (pat : List Char) : List Char → Nat → Option Nat
  | [], i => if pat.isPrefixOf [] then some i else none
  | c :: rest, i =>
    if pat.isPrefixOf (c :: rest) then some i
    else indexOfPatAux pat rest (i + 1)

/-- Mirrors `strings.Index l pat` for the recognizer's non-empty patterns. -/
def indexOfPat (l pat : List Char) : Option Nat := indexOfPatAux pat l 0

/-- The five leading patterns the recognizer searches for. -/
def kiroPatterns : List (List Char) :=
  [("\x7b\"content\":" : String).data,
   ("\x7b\"name\":" : String).data,
   ("\x7b\"followupPrompt\":" : String).data,
   ("\x7b\"input\":" : String).data,
   ("\x7b\"stop\":" : String).data]

/-- Earliest occurrence, at or after `searchStart`, of any of the five
patterns (the minimum of the individual first occurrences, as in the Go
candidate scan). -/
def earliestPatternIndex (remaining : List Char) (searchStart : Nat) : Option Nat :=
  let cands := kiroPatterns.filterMap fun pat =>
    (indexOfPat (remaining.drop searchStart) pat).map (· + searchStart)
  match cands with
  | [] => none
  | c :: rest => some (rest.foldl min c)

/-- The brace-balanced, string-aware scan of the recognizer: walks from
`i` with a brace counter, a string toggle and an escape flag, and returns
the index of the matching closing brace, or `none` when unbalanced. -/
def scanBalancedAux : List Char → Nat → Int → Bool → Bool → Option Nat
  | [], _, _, _, _ => none
  | c :: rest, i, braceCount, inString, escapeNext =>
    if escapeNext then scanBalancedAux rest (i + 1) braceCount inString false
    else if c = '\\' then scanBalancedAux rest (i + 1) braceCount inString true
    else if c = '"' then scanBalancedAux rest (i + 1) braceCount (!inString) escapeNext
    else if inString then scanBalancedAux rest (i + 1) braceCount inString escapeNext
    else if c = '\x7b' then scanBalancedAux rest (i + 1) (braceCount + 1) inString escapeNext
    else if c = '\x7d' then
      if braceCount - 1 = 0 then some i
      else scanBalancedAux rest (i + 1) (braceCount - 1) inString escapeNext
    else scanBalancedAux rest (i + 1) braceCount inString escapeNext

/-- Balanced scan starting at `jsonStart` (global indices). -/
def scanBalanced (remaining : List Char) (jsonStart : Nat) : Option Nat :=
  scanBalancedAux (remaining.drop jsonStart) jsonStart 0 false false

/-- JSON whitespace skipping. -/
def skipWs : List Char → List Char
  | c :: rest =>
    if c = ' ' ∨ c = '\n' ∨ c = '\t' ∨ c = '\r' then skipWs rest else c :: rest
  | [] => []

/-- Lean value of a JSON string escape character (the `\u` form is not
needed by the recognizer's records and is rejected). -/
def escChar (e : Char) : Option Char :=
  if e = '"' then some '"'
  else if e = '\\' then some '\\'
  else if e = '/' then some '/'
  else if e = 'n' then some '\n'
  else if e = 't' then some '\t'
  else if e = 'r' then some '\r'
  else if e = 'b' then some (Char.ofNat 8)
  else if e = 'f' then some (Char.ofNat 12)
  else none

/-- Parses the body of a JSON string after the opening quote; returns the
content and the input after the closing quote. -/
def parseStringBody : List Char → Option (List Char × List Char)
  | [] => none
  | '"' :: rest => some ([], rest)
  | '\\' :: e :: rest =>
    match escChar e with
    | some c => (parseStringBody rest).map fun p => (c :: p.1, p.2)
    | none => none
  | c :: rest => (parseStringBody rest).map fun p => (c :: p.1, p.2)

/-- Character class of JSON number literals. -/
def isNumChar (c : Char) : Bool :=
  c.isDigit ∨ c = '-' ∨ c = '+' ∨ c = '.' ∨ c = 'e' ∨ c = 'E'

mutual
/-- Fuelled JSON value parser (fuel bounds the recursion; the callers pass
one more than the input length, which is always sufficient). -/
def parseJVal : Nat → List Char → Option (JVal × List Char)
  | 0, _ => none
  | fuel + 1, input =>
    match skipWs input with
    | [] => none
    | c :: rest =>
      if c = 'n' then
        if ("ull" : String).data.isPrefixOf rest then
          some (.jnull, rest.drop 3)
        else none
      else if c = 't' then
        if ("rue" : String).data.isPrefixOf rest then
          some (.jbool true, rest.drop 3)
        else none
      else if c = 'f' then
        if ("alse" : String).data.isPrefixOf rest then
          some (.jbool false, rest.drop 4)
        else none
      else if c = '"' then
        (parseStringBody rest).map fun p => (.jstr ⟨p.1⟩, p.2)
      else if c = '\x7b' then
        parseObjFields fuel rest
      else if c = '[' then
        parseArrElems fuel rest
      else if isNumChar c then
        some (.jnum ((c :: rest).takeWhile isNumChar), (c :: rest).dropWhile isNumChar)
      else none

/-- Parses the fields of a JSON object after the opening brace. -/
def parseObjFields : Nat → List Char → Option (JVal × List Char)
  | 0, _ => none
  | fuel + 1, input =>
    match skipWs input with
    | [] => none
    | c :: rest =>
      if c = '\x7d' then some (.jobj [], rest)
      else if c = '"' then
        match parseStringBody rest with
        | none => none
        | some (key, afterKey) =>
          match skipWs afterKey with
          | ':' :: afterColon =>
            match parseJVal fuel afterColon with
            | none => none
            | some (v, afterVal) =>
              match skipWs afterVal with
              | ',' :: afterComma =>
                match parseObjFields fuel afterComma with
                | some (.jobj fields, rest2) => some (.jobj ((⟨key⟩, v) :: fields), rest2)
                | _ => none
              | '\x7d' :: rest2 => some (.jobj [(⟨key⟩, v)], rest2)
              | _ => none
          | _ => none
      else none

/-- Parses the elements of a JSON array after the opening bracket. -/
def parseArrElems : Nat → List Char → Option (JVal × List Char)
  | 0, _ => none
  | fuel + 1, input =>
    match skipWs input with
    | ']' :: rest => some (.jarr [], rest)
    | _ =>
      match parseJVal fuel input with
      | none => none
      | some (v, afterVal) =>
        match skipWs afterVal with
        | ',' :: afterComma =>
          match parseArrElems fuel afterComma with
          | some (.jarr xs, rest2) => some (.jarr (v :: xs), rest2)
          | _ => none
        | ']' :: rest2 => some (.jarr [v], rest2)
        | _ => none
end

/-- Models `json.Unmarshal` of one extracted record into a string-keyed
map: the whole slice must parse as one JSON object. -/
def parseJsonObject (s : List Char) : Option (List (String × JVal)) :=
  match parseJVal (s.length + 1) s with
  | some (.jobj fields, rest) => if skipWs rest = [] then some fields else none
  | _ => none

/-- Go `parsed[key] == nil`: true when the key is absent or maps to JSON
null. -/
def isNilField (fields : List (String × JVal)) (key : String) : Bool :=
  match fields.lookup key with
  | none => true
  | some .jnull => true
  | some _ => false

/-- The record classification of `parseKiroStreamBuffer` (`kiro_executor.go`
lines 1087-1135): a string `content` without `followupPrompt` is a text
event; a string `name` with a string `toolUseId` is a tool-use start with
inline input and stop; otherwise a string `input` with a nil `name` is a
tool-input continuation; otherwise a true `stop` with a nil `name` is a
tool-use stop. -/
def classifyKiroRecord (fields : List (String × JVal)) : List KiroStreamEvent :=
  match fields.lookup "content" with
  | some (.jstr content) =>
    if (fields.lookup "followupPrompt").isSome then []
    else [{ type := "content", content := content, toolUse := none, toolInput := "",
            toolStop := false }]
  | _ =>
    match fields.lookup "name" with
    | some (.jstr name) =>
      match fields.lookup "toolUseId" with
      | some (.jstr toolUseId) =>
        let inputStr := match fields.lookup "input" with
          | some (.jstr i) => i
          | _ => ""
        let stopVal := match fields.lookup "stop" with
          | some (.jbool b) => b
          | _ => false
        [{ type := "toolUse", content := "",
           toolUse := some { name := name, toolUseId := toolUseId, input := inputStr },
           toolInput := "", toolStop := stopVal }]
      | _ => []
    | _ =>
      if (fields.lookup "input").isSome ∧ isNilField fields "name" then
        match fields.lookup "input" with
        | some (.jstr s) =>
          [{ type := "toolUseInput", content := "", toolUse := none, toolInput := s,
             toolStop := false }]
        | _ => []
      else if (fields.lookup "stop").isSome ∧ isNilField fields "name" then
        match fields.lookup "stop" with
        | some (.jbool true) =>
          [{ type := "toolUseStop", content := "", toolUse := none, toolInput := "",
             toolStop := true }]
        | _ => []
      else []

/-- The recognizer's main loop (`kiro_executor.go` lines 1002-1144): finds
the earliest pattern at or after `searchStart`, scans for the matching
brace, classifies the complete record, and advances; an unbalanced record
re-slices `remaining` to start at the record and breaks with the old
`searchStart` (whose interaction with the post-loop slice is part of what
the development checks); a record consuming the rest of the buffer empties
`remaining`.  Returns (events, remaining, searchStart) as the loop leaves
them; fuelled, with fuel exceeding the buffer length, which the strictly
increasing `searchStart` makes sufficient. -/
def parseKiroStreamLoop : Nat → List Char → Nat →
    List KiroStreamEvent × List Char × Nat
  | 0, remaining, searchStart => ([], remaining, searchStart)
  | fuel + 1, remaining, searchStart =>
    match earliestPatternIndex remaining searchStart with
    | none => ([], remaining, searchStart)
    | some jsonStart =>
      match scanBalanced remaining jsonStart with
      | none => ([], remaining.drop jsonStart, searchStart)
      | some jsonEnd =>
        let jsonStr := (remaining.drop jsonStart).take (jsonEnd + 1 - jsonStart)
        let evs :=
          match parseJsonObject jsonStr with
          | some fields => classifyKiroRecord fields
          | none => []
        let searchStart2 := jsonEnd + 1
        if searchStart2 ≥ remaining.length then (evs, [], searchStart2)
        else
          let r := parseKiroStreamLoop fuel remaining searchStart2
          (evs ++ r.1, r.2.1, r.2.2)

/-- Mirrors `KiroExecutor.parseKiroStreamBuffer`: runs the loop and applies
the post-loop trim of the consumed prefix (`remaining = remaining[searchStart:]`
when `0 < searchStart < len(remaining)`, emptied when `searchStart` reaches
the end). -/
def parseKiroStreamBuffer (buffer : List Char) :
    List KiroStreamEvent × List Char :=
  let r := parseKiroStreamLoop (buffer.length + 1) buffer 0
  let remaining := r.2.1
  let searchStart := r.2.2
  let remaining2 :=
    if searchStart > 0 ∧ searchStart < remaining.length then remaining.drop searchStart
    else if searchStart ≥ remaining.length then []
    else remaining
  (r.1, remaining2)

/-- Mirrors `countTextTokens` of `kiro_executor.go`: 0 for the empty string,
else the byte length divided by 4, rounded up (Go `len` counts bytes). -/
def countTextTokens (text : String) : Nat :=
  if text = "" then 0 else (text.utf8ByteSize + 3) / 4

mutual
/-- Mirrors `estimateContentTokens` of `kiro_executor.go`: 0 for absent
content, text estimation for string content, block-wise estimation for array
content, raw-length estimation for object content. -/
def estimateContentTokens : CContent → Nat
  | .cmissing => 0
  | .cstr s => countTextTokens s
  | .cblocks bs => estimateBlockListTokens bs
  | .cobj raw => countTextTokens raw

/-- Sum of the per-block estimates of an array content. -/
def estimateBlockListTokens : List CBlock → Nat
  | [] => 0
  | b :: rest => estimateBlockTokens b + estimateBlockListTokens rest

/-- Per-block estimate: text by length, images a flat 1500, tool_use 4 plus
name plus raw input, tool_result 4 plus id plus nested content, thinking by
its text, unknown blocks by their raw serialization. -/
def estimateBlockTokens : CBlock → Nat
  | .text s => countTextTokens s
  | .image _ _ => 1500
  | .imageUrl _ => 1500
  | .toolUse _ name input =>
    4 + countTextTokens name +
      (match input with | some raw => countTextTokens raw | none => 0)
  | .toolResult id c => 4 + countTextTokens id + estimateContentTokens c
  | .thinking s => countTextTokens s
  | .other raw => countTextTokens raw
end

/-- System text as `estimateInputTokens` reads it: array text blocks are
concatenated with no separator (unlike `buildKiroRequest`'s newline join),
anything else is taken via `String()`. -/
def systemTextForEstimate (c : CContent) : String :=
  match c with
  | .cblocks bs => String.join (textParts bs)
  | c => goString c

/-- Mirrors `estimateInputTokens` of `kiro_executor.go`: base overhead 4,
system prompt text plus 2 when present, 4 + 1 per message plus its content
estimate, and tool definitions with base/per-tool overheads of 0/50 for one
tool, 100/30 for at most five and 180/20 for more. -/
def estimateInputTokens (req : ClaudeRequest) : Nat :=
  let sys :=
    match req.system with
    | none => 0
    | some c => countTextTokens (systemTextForEstimate c) + 2
  let msgs := (req.messages.map fun m => 4 + 1 + estimateContentTokens m.content).sum
  let tools :=
    match req.tools with
    | none => 0
    | some ts =>
      let bp : Nat × Nat :=
        if ts.length = 1 then (0, 50)
        else if ts.length ≤ 5 then (100, 30)
        else (180, 20)
      bp.1 + (ts.map fun t =>
        countTextTokens t.name + countTextTokens t.description +
          (match t.input_schema with | some raw => countTextTokens raw | none => 0) +
          bp.2).sum
  4 + sys + msgs + tools

/-! Spec-side reading of the token-estimation formula: the sum of
ceil(byte-length / 4) over all counted texts, plus fixed structural
overheads. -/

/-- Ceiling division by four. -/
def ceilDiv4 (n : Nat) : Nat := (n + 3) / 4

/-- Spec-side text estimate: ceil(len/4), which is 0 for empty text. -/
def specTextTokens (s : String) : Nat := ceilDiv4 s.utf8ByteSize

/-- Sum of the spec-side text estimates of a list of texts. -/
def sumTextTokens (l : List String) : Nat := (l.map specTextTokens).sum

mutual
/-- Spec side: all texts counted inside a message content. -/
def specContentTexts : CContent → List String
  | .cmissing => []
  | .cstr s => [s]
  | .cblocks bs => specBlockListTexts bs
  | .cobj raw => [raw]

/-- Spec side: texts of a block list. -/
def specBlockListTexts : List CBlock → List String
  | [] => []
  | b :: rest => specBlockTexts b ++ specBlockListTexts rest

/-- Spec side: texts counted inside one block (serialized arguments of
tool_use and tool_result blocks included). -/
def specBlockTexts : CBlock → List String
  | .text s => [s]
  | .image _ _ => []
  | .imageUrl _ => []
  | .toolUse _ name input =>
    name :: (match input with | some raw => [raw] | none => [])
  | .toolResult id c => id :: specContentTexts c
  | .thinking s => [s]
  | .other raw => [raw]
end

mutual
/-- Spec side: structural overhead of a message content (images 1500 each,
4 per tool_use / tool_result block, nested contents included). -/
def specContentOverhead : CContent → Nat
  | .cblocks bs => specBlockListOverhead bs
  | _ => 0

/-- Spec side: structural overhead of a block list. -/
def specBlockListOverhead : List CBlock → Nat
  | [] => 0
  | b :: rest => specBlockOverhead b + specBlockListOverhead rest

/-- Spec side: structural overhead of one block. -/
def specBlockOverhead : CBlock → Nat
  | .image _ _ => 1500
  | .imageUrl _ => 1500
  | .toolUse _ _ _ => 4
  | .toolResult _ c => 4 + specContentOverhead c
  | _ => 0
end

/-- Spec side: tool-definition base and per-tool overheads for a tool count
of 1 / at most 5 / more than 5. -/
def specToolBasePer (n : Nat) : Nat × Nat :=
  if n = 1 then (0, 50) else if n ≤ 5 then (100, 30) else (180, 20)

/-- Spec-side reading of the claim's estimation formula: the text-token sum
over the system text, all message texts and all tool-definition texts, plus
4 per request, 2 for a present system prompt, 4 + 1 per message, the
per-content structural overheads, and the tool base and per-tool overheads. -/
def specEstimateInputTokens (req : ClaudeRequest) : Nat :=
  let sysTexts :=
    match req.system with
    | none => []
    | some c => [systemTextForEstimate c]
  let msgTexts := (req.messages.map fun m => specContentTexts m.content).flatten
  let toolTexts :=
    match req.tools with
    | none => []
    | some ts =>
      (ts.map fun t =>
        t.name :: t.description ::
          (match t.input_schema with | some raw => [raw] | none => [])).flatten
  sumTextTokens (sysTexts ++ msgTexts ++ toolTexts) +
    4 +
    (match req.system with | none => 0 | some _ => 2) +
    5 * req.messages.length +
    (req.messages.map fun m => specContentOverhead m.content).sum +
    (match req.tools with
     | none => 0
     | some ts => (specToolBasePer ts.length).1 + (specToolBasePer ts.length).2 * ts.length)

/-- Mirrors `KiroExecutor.buildKiroRequest` (`kiro_executor.go` lines
661-962) on the structured Claude request: model aliasing, system prompt
extraction and folding, per-message component split, tail dedup,
adjacent-same-role merge, history construction, current-message extraction
with the empty-content guard, tool-result dedup, tools context, and the
profile-ARN attachment for social accounts. -/
def buildKiroRequest (req : ClaudeRequest) (model : String) (tok : KiroTokenData) :
    KiroRequest :=
  let kiroModel := mapKiroModel model
  let sp := systemPromptOf req
  let merged := mergedOf req
  let pre := historyPrefixOf sp kiroModel merged
  let hMid := historyMidOf kiroModel merged pre.2
  let cur := currentRawOf merged
  let content := kiroGuardedContent cur.1 cur.2.1
  { history := pre.1 ++ hMid ++ cur.2.2.2
    currentMessage :=
      { content := content, modelId := kiroModel, origin := OriginAIEditor,
        images := cur.2.2.1, toolResults := dedupeToolResults cur.2.1,
        tools := toolsContextOf req }
    profileArn :=
      if tok.authMethod = AuthMethodSocial ∧ tok.profileArn ≠ "" then
        some tok.profileArn
      else none }

end CLIProxy

namespace CLIProxy

/-- Claim C10: converting a `KiroTokenData` with `FromTokenData` and back with
`ToTokenData` restores all eight fields. -/
theorem kiro_token_storage_roundtrip (td : KiroTokenData) (lastRefresh : String) :
    (FromTokenData td lastRefresh).ToTokenData = td := rfl

/-- Claim C7, counterexample: a second successful refresh that happens later
(at second 10 instead of 0) but receives a much smaller upstream `expiresIn`
(5 instead of 3600) stores a strictly smaller `expiresAt`, so the stored
expiry is not strictly increasing across successful refreshes. -/
theorem kiro_refresh_expiry_not_monotonic :
    (0 : Int) < 10 ∧ ¬ kiroRefreshExpiresAt 0 3600 < kiroRefreshExpiresAt 10 5 := by
  constructor
  · decide
  · simp [kiroRefreshExpiresAt]

/-- Claim C7, amended: each successful refresh stores
`expiresAt = now + expiresIn`; across a sequence of successful refreshes whose
wall-clock instants strictly increase and whose upstream `expiresIn` values
are non-decreasing, the stored `expiresAt` is strictly increasing. -/
theorem kiro_refresh_expiry_monotonic_amended (refreshes : List (Int × Int))
    (h : refreshes.Chain' fun p q => p.1 < q.1 ∧ p.2 ≤ q.2) :
    (refreshes.map fun p => kiroRefreshExpiresAt p.1 p.2).Chain' (· < ·) := by
  rw [List.chain'_map]
  exact h.imp fun hpq => by
    have h1 := hpq.1
    have h2 := hpq.2
    simp only [kiroRefreshExpiresAt]
    omega

/-- Witness for the amended C7 theorem at a concrete two-refresh schedule. -/
theorem kiro_refresh_expiry_monotonic_amended_witness :
    ([((0 : Int), (100 : Int)), (10, 100)].map
      fun p => kiroRefreshExpiresAt p.1 p.2).Chain' (· < ·) :=
  kiro_refresh_expiry_monotonic_amended [(0, 100), (10, 100)]
    (List.chain'_pair.mpr (by norm_num))

/-- Interpolating the region into the desktop (social) refresh template. -/
theorem replaceAll_refreshURL (r : String) :
    replaceAll "https://prod.\x7b\x7bregion\x7d\x7d.auth.desktop.kiro.dev/refreshToken" "\x7b\x7bregion\x7d\x7d" r
      = "https://prod." ++ r ++ ".auth.desktop.kiro.dev/refreshToken" := by
  cases r with
  | mk d =>
    show String.mk _ = _
    rw [show ("https://prod." ++ String.mk d ++ ".auth.desktop.kiro.dev/refreshToken"
          = String.mk ("https://prod.".data ++ d ++ ".auth.desktop.kiro.dev/refreshToken".data))
        from rfl]
    simp [replaceAll, replaceAllAux]

/-- Interpolating the region into the OIDC (IDC) token-endpoint template. -/
theorem replaceAll_refreshIDCURL (r : String) :
    replaceAll "https://oidc.\x7b\x7bregion\x7d\x7d.amazonaws.com/token" "\x7b\x7bregion\x7d\x7d" r
      = "https://oidc." ++ r ++ ".amazonaws.com/token" := by
  cases r with
  | mk d =>
    show String.mk _ = _
    rw [show ("https://oidc." ++ String.mk d ++ ".amazonaws.com/token"
          = String.mk ("https://oidc.".data ++ d ++ ".amazonaws.com/token".data))
        from rfl]
    simp [replaceAll, replaceAllAux]

/-- Claim C6: for an account snapshot with a non-empty refresh token,
`RefreshTokens` targets the desktop refreshToken endpoint when the auth
method is "social" and the OIDC token endpoint otherwise, interpolating the
account region (default "us-east-1" when unset) into the template, and
the request body carries client id, client secret and
`grantType = "refresh_token"` only on the non-social (IDC) path. -/
theorem kiro_refresh_endpoint_selection (td : KiroTokenData)
    (h : td.refreshToken ≠ "") :
    refreshTokensRequestParts DefaultConstants td =
      .ok
        (if td.authMethod = "social" then
          "https://prod." ++ refreshRegion td ++ ".auth.desktop.kiro.dev/refreshToken"
         else
          "https://oidc." ++ refreshRegion td ++ ".amazonaws.com/token",
         if td.authMethod = "social" then
          { refreshToken := td.refreshToken, clientId := "", clientSecret := "",
            grantType := "" }
         else
          { refreshToken := td.refreshToken, clientId := td.clientID,
            clientSecret := td.clientSecret, grantType := "refresh_token" })
      ∧ (td.region = "" → refreshRegion td = "us-east-1") := by
  refine ⟨?_, fun hr => by simp [refreshRegion, hr]⟩
  rw [refreshTokensRequestParts, if_neg h]
  by_cases hm : td.authMethod = "social"
  · simp [AuthMethodSocial, DefaultConstants, hm, replaceAll_refreshURL]
  · simp [AuthMethodSocial, DefaultConstants, hm, replaceAll_refreshIDCURL]

/-- Witness for C6 at concrete social and IDC snapshots. -/
theorem kiro_refresh_endpoint_selection_witness :
    refreshTokensRequestParts DefaultConstants
        { accessToken := "a", refreshToken := "rt", clientID := "cid",
          clientSecret := "cs", authMethod := "social", expiresAt := "",
          profileArn := "", region := "" } =
      .ok ("https://prod.us-east-1.auth.desktop.kiro.dev/refreshToken",
           { refreshToken := "rt", clientId := "", clientSecret := "", grantType := "" }) ∧
    refreshTokensRequestParts DefaultConstants
        { accessToken := "a", refreshToken := "rt", clientID := "cid",
          clientSecret := "cs", authMethod := "idc", expiresAt := "",
          profileArn := "", region := "eu-west-1" } =
      .ok ("https://oidc.eu-west-1.amazonaws.com/token",
           { refreshToken := "rt", clientId := "cid", clientSecret := "cs",
             grantType := "refresh_token" }) := by
  constructor
  · have h := (kiro_refresh_endpoint_selection
      { accessToken := "a", refreshToken := "rt", clientID := "cid",
        clientSecret := "cs", authMethod := "social", expiresAt := "",
        profileArn := "", region := "" } (by decide)).1
    simpa [refreshRegion] using h
  · have h := (kiro_refresh_endpoint_selection
      { accessToken := "a", refreshToken := "rt", clientID := "cid",
        clientSecret := "cs", authMethod := "idc", expiresAt := "",
        profileArn := "", region := "eu-west-1" } (by decide)).1
    simpa [refreshRegion] using h

/-- Claim C1: with a non-empty refresh token and a refresh driver that
rotates to a usable token, a first 403 triggers exactly one refresh, a second
upstream call rebuilt from the canonical body with the rotated token, and the
second outcome is returned: for 403 then 200 the processed 200 body, for 403
then 403 the second 403 as a status error — on both the `Execute` and the
`ExecuteStream` paths. -/
theorem kiro_retry_once_on_403
    (build : KiroTokenData → String) (process : String → String)
    (tok newTok : KiroTokenData) (b1 b2 : String)
    (hAcc : tok.accessToken ≠ "") (hRef : tok.refreshToken ≠ "")
    (hNew : newTok.accessToken ≠ "") :
    kiroExecute build process tok (.ok newTok) (403, b1) (200, b2) =
      { outcome := .ok (process b2), upstreamCalls := [build tok, build newTok],
        refreshCalls := 1 } ∧
    kiroExecute build process tok (.ok newTok) (403, b1) (403, b2) =
      { outcome := .statusError 403 b2, upstreamCalls := [build tok, build newTok],
        refreshCalls := 1 } ∧
    kiroExecuteStream build process tok (.ok newTok) (403, b1) (200, b2) =
      { outcome := .ok (process b2), upstreamCalls := [build tok, build newTok],
        refreshCalls := 1 } ∧
    kiroExecuteStream build process tok (.ok newTok) (403, b1) (403, b2) =
      { outcome := .statusError 403 b2, upstreamCalls := [build tok, build newTok],
        refreshCalls := 1 } := by
  refine ⟨?_, ?_, ?_, ?_⟩ <;>
    simp [kiroExecute, kiroExecuteStream, hAcc, hRef, hNew]

/-- Witness for C1 at a concrete scripted upstream. -/
theorem kiro_retry_once_on_403_witness :
    kiroExecute (fun t => t.accessToken) id
        { accessToken := "t1", refreshToken := "rt", clientID := "", clientSecret := "",
          authMethod := "", expiresAt := "", profileArn := "", region := "" }
        (.ok { accessToken := "t2", refreshToken := "rt2", clientID := "",
               clientSecret := "", authMethod := "", expiresAt := "",
               profileArn := "", region := "" })
        (403, "denied") (200, "hello") =
      { outcome := .ok "hello", upstreamCalls := ["t1", "t2"], refreshCalls := 1 } :=
  (kiro_retry_once_on_403 (fun t => t.accessToken) id
    { accessToken := "t1", refreshToken := "rt", clientID := "", clientSecret := "",
      authMethod := "", expiresAt := "", profileArn := "", region := "" }
    { accessToken := "t2", refreshToken := "rt2", clientID := "", clientSecret := "",
      authMethod := "", expiresAt := "", profileArn := "", region := "" }
    "denied" "hello" (by decide) (by decide) (by decide)).1

/-- Claim C9: `KiroExecutor.Refresh` with an empty refresh token returns the
account unchanged with no error, and a refresh-driver failure is propagated
as an error without producing any modified account. -/
theorem kiro_refresh_noop_and_error_propagation (a : Auth)
    (driver : KiroTokenData → Except String KiroTokenData)
    (nowStr : String) (e : String) :
    (metaStr a.metadata "refreshToken" = "" →
      kiroExecutorRefresh (some a) driver nowStr = .ok a) ∧
    (metaStr a.metadata "refreshToken" ≠ "" →
      driver (kiroAuthCreds a).1 = .error e →
      kiroExecutorRefresh (some a) driver nowStr = .error e) := by
  have hcreds : (kiroAuthCreds a).1.refreshToken = metaStr a.metadata "refreshToken" := by
    rw [kiroAuthCreds]
    by_cases hattr : attrStr a.attributes "region" = "" <;> simp [hattr]
  constructor
  · intro h
    simp [kiroExecutorRefresh, hcreds, h]
  · intro h hdrv
    simp [kiroExecutorRefresh, hcreds, h, hdrv]

/-- Witness for C9: a no-token account is returned unchanged, and a failing
driver's error surfaces on an account that does carry a refresh token. -/
theorem kiro_refresh_noop_and_error_propagation_witness :
    kiroExecutorRefresh
        (some { id := "a1", label := "", metadata := [("accessToken", .str "t")],
                attributes := [] })
        (fun _ => .error "boom") "2026-01-01T00:00:00Z" =
      .ok { id := "a1", label := "", metadata := [("accessToken", .str "t")],
            attributes := [] } ∧
    kiroExecutorRefresh
        (some { id := "a2", label := "", metadata := [("refreshToken", .str "rt")],
                attributes := [] })
        (fun _ => .error "boom") "2026-01-01T00:00:00Z" =
      .error "boom" := by
  constructor
  · exact (kiro_refresh_noop_and_error_propagation
      { id := "a1", label := "", metadata := [("accessToken", .str "t")],
        attributes := [] }
      (fun _ => .error "boom") "2026-01-01T00:00:00Z" "boom").1 (by decide)
  · exact (kiro_refresh_noop_and_error_propagation
      { id := "a2", label := "", metadata := [("refreshToken", .str "rt")],
        attributes := [] }
      (fun _ => .error "boom") "2026-01-01T00:00:00Z" "boom").2 (by decide) rfl

/-- Helper for C4: the dedup loop started at `lastContent = a` computes the
tail of Mathlib's `destutter'` of the projected content sequence, provided
every content record is non-empty. -/
theorem kiroStreamTextDeltasAux_destutter (es : List KiroStreamEvent) :
    ∀ a : String, (∀ e ∈ es, e.type = "content" → e.content ≠ "") →
      List.destutter' (· ≠ ·) a
          ((es.filter fun e => e.type = "content").map KiroStreamEvent.content) =
        a :: kiroStreamTextDeltasAux a es := by
  induction es with
  | nil => intro a _; simp [kiroStreamTextDeltasAux]
  | cons e t ih =>
    intro a h
    have ht : ∀ x ∈ t, x.type = "content" → x.content ≠ "" :=
      fun x hx => h x (List.mem_cons_of_mem e hx)
    by_cases hc : e.type = "content"
    · have hne : e.content ≠ "" := h e (List.mem_cons_self e t) hc
      by_cases heq : e.content = a
      · simp [kiroStreamTextDeltasAux, hc, hne, heq, List.filter_cons,
          List.destutter', ih a ht]
      · rw [show (((e :: t).filter fun x => x.type = "content").map KiroStreamEvent.content)
            = e.content :: ((t.filter fun x => x.type = "content").map KiroStreamEvent.content)
          from by simp [List.filter_cons, hc]]
        simp only [List.destutter']
        rw [if_pos (by simpa using fun hcontra => heq hcontra.symm)]
        simp [kiroStreamTextDeltasAux, hc, hne, heq, ih e.content ht]
    · simp [kiroStreamTextDeltasAux, hc, List.filter_cons, ih a ht]

/-- Claim C4: in the `ExecuteStream` loop, runs of consecutive identical
non-empty text records collapse to a single emitted text delta: the emitted
delta sequence equals the destutter (collapse of adjacent duplicates) of the
content projection of the event sequence's text records. -/
theorem kiro_stream_text_dedup (es : List KiroStreamEvent)
    (h : ∀ e ∈ es, e.type = "content" → e.content ≠ "") :
    kiroStreamTextDeltas es =
      ((es.filter fun e => e.type = "content").map KiroStreamEvent.content).destutter
        (· ≠ ·) := by
  have haux := kiroStreamTextDeltasAux_destutter es "" h
  cases hm : (es.filter fun e => e.type = "content").map KiroStreamEvent.content with
  | nil =>
    rw [hm] at haux
    simp only [List.destutter'] at haux
    simpa [kiroStreamTextDeltas, List.destutter] using (List.cons.injEq _ _ _ _ ▸ haux).2.symm
  | cons c rest =>
    have hcne : c ≠ "" := by
      have hmem : c ∈ (es.filter fun e => e.type = "content").map KiroStreamEvent.content := by
        rw [hm]; exact List.mem_cons_self c rest
      obtain ⟨e, he, hec⟩ := List.mem_map.mp hmem
      have := List.of_mem_filter he
      exact hec ▸ h e (List.mem_of_mem_filter he) (by simpa using this)
    rw [hm] at haux
    simp only [List.destutter'] at haux
    rw [if_pos (by simpa using fun hcontra => hcne hcontra.symm)] at haux
    have := (List.cons.injEq _ _ _ _ ▸ haux).2
    simpa [kiroStreamTextDeltas, List.destutter] using this.symm

/-- Witness for C4 at the spec's S3 scenario: upstream contents "abc", "abc",
"def" yield exactly the deltas "abc" then "def". -/
theorem kiro_stream_text_dedup_witness :
    kiroStreamTextDeltas (["abc", "abc", "def"].map contentEvent) = ["abc", "def"] := by
  rw [kiro_stream_text_dedup (["abc", "abc", "def"].map contentEvent)
    (by intro e he _; revert he; simp [contentEvent]; rintro (rfl | rfl | rfl) <;> simp)]
  rfl

/-- Claim C3: the built CodeWhisperer request never carries empty current
content; an empty raw current content is replaced by "Tool results provided."
when the current turn carries tool results and by "Continue" otherwise. -/
theorem kiro_current_content_nonempty (req : ClaudeRequest) (model : String)
    (tok : KiroTokenData) :
    (buildKiroRequest req model tok).currentMessage.content ≠ "" ∧
    ((currentRawOf (mergedOf req)).1 = "" →
      (buildKiroRequest req model tok).currentMessage.content =
        (if (currentRawOf (mergedOf req)).2.1 ≠ [] then "Tool results provided."
         else "Continue")) := by
  have hc : (buildKiroRequest req model tok).currentMessage.content =
      kiroGuardedContent (currentRawOf (mergedOf req)).1
        (currentRawOf (mergedOf req)).2.1 := rfl
  rw [hc]
  constructor
  · rw [kiroGuardedContent]
    by_cases hraw : (currentRawOf (mergedOf req)).1 = ""
    · rw [if_pos hraw]
      by_cases htr : (currentRawOf (mergedOf req)).2.1 ≠ [] <;> simp [htr]
    · rwa [if_neg hraw]
  · intro hraw
    rw [kiroGuardedContent, if_pos hraw]

/-- Witness for C3: the empty request yields empty raw content and no tool
results, so the current content becomes "Continue". -/
theorem kiro_current_content_nonempty_witness :
    (buildKiroRequest { system := none, messages := [], tools := none } "m"
        { accessToken := "t", refreshToken := "r", clientID := "", clientSecret := "",
          authMethod := "", expiresAt := "", profileArn := "", region := "" }).currentMessage.content
      = "Continue" := by
  have h := (kiro_current_content_nonempty { system := none, messages := [], tools := none }
    "m" { accessToken := "t", refreshToken := "r", clientID := "", clientSecret := "",
          authMethod := "", expiresAt := "", profileArn := "", region := "" }).2 rfl
  simpa using h

/-- Folding blocks into a component split never changes its role. -/
theorem pmFoldl_role (bs : List CBlock) : ∀ pm : PMsg,
    (bs.foldl pmAddBlock pm).role = pm.role := by
  induction bs with
  | nil => intro pm; rfl
  | cons b rest ih =>
    intro pm
    rw [List.foldl_cons, ih]
    cases b <;> rfl

/-- Splitting a message preserves its role. -/
theorem processMessage_role (m : CMessage) : (processMessage m).role = m.role := by
  rw [processMessage]
  cases m.content <;> first
    | rfl
    | exact pmFoldl_role _ _

/-- The adjacent-role merge run starts with the current run's role. -/
theorem mergeRun_head_role (l : List PMsg) : ∀ cur : PMsg,
    (mergeRun cur l).head?.map PMsg.role = some cur.role := by
  induction l with
  | nil => intro cur; rfl
  | cons m rest ih =>
    intro cur
    rw [mergeRun]
    by_cases h : m.role = cur.role
    · rw [if_pos h, ih (mergePM cur m)]; rfl
    · rw [if_neg h]; rfl

/-- Dropping a trailing assistant brace message keeps a user-headed list
user-headed. -/
theorem dropTrailingBrace_head_user (l : List PMsg)
    (h : l.head?.map PMsg.role = some "user") :
    (dropTrailingBrace l).head?.map PMsg.role = some "user" := by
  match l with
  | [] => simp at h
  | [m] =>
    have hrole : m.role = "user" := by simpa using h
    have hne : ¬(m.role = "assistant" ∧ m.content.trim = "\x7b") := by
      rw [hrole]; rintro ⟨hcontra, -⟩; exact absurd hcontra (by decide)
    have hv : dropTrailingBrace [m] = [m] := by
      simp only [dropTrailingBrace, List.getLast?_singleton, if_neg hne]
    rw [hv]; exact h
  | m :: r :: rs =>
    have hrole : m.role = "user" := by simpa using h
    have hv : dropTrailingBrace (m :: r :: rs) = m :: r :: rs ∨
        dropTrailingBrace (m :: r :: rs) = m :: (r :: rs).dropLast := by
      simp only [dropTrailingBrace]
      rcases hl : (m :: r :: rs).getLast? with _ | last
      · simp at hl
      · dsimp only
        by_cases hcond : last.role = "assistant" ∧ last.content.trim = "\x7b"
        · rw [if_pos hcond]
          right
          simp [List.dropLast]
        · rw [if_neg hcond]; left; rfl
    rcases hv with hv | hv <;> rw [hv] <;> simpa using hrole

/-- A request whose first message is a user turn yields a user-headed merged
list. -/
theorem mergedOf_head_user (req : ClaudeRequest)
    (h : req.messages.head?.map CMessage.role = some "user") :
    (mergedOf req).head?.map PMsg.role = some "user" := by
  have hmap : (req.messages.map processMessage).head?.map PMsg.role = some "user" := by
    cases hm : req.messages with
    | nil => rw [hm] at h; simp at h
    | cons m rest =>
      rw [hm] at h
      simp only [List.map_cons, List.head?_cons] at h ⊢
      simpa [processMessage_role] using h
  have hdrop := dropTrailingBrace_head_user _ hmap
  rw [mergedOf]
  cases hd : dropTrailingBrace (req.messages.map processMessage) with
  | nil => rw [hd] at hdrop; simp at hdrop
  | cons m0 rest =>
    rw [hd] at hdrop
    simp only [List.head?_cons, Option.map_some] at hdrop
    rw [mergeAdjacent, mergeRun_head_role]
    simpa using hdrop

/-- Claim C2, counterexample: for system "S" and the single user message "U",
the built request's current content is not the folded "S\n\nU" (it stays "U")
and the history is not empty (it carries the folded entry). -/
theorem kiro_system_folding_counterexample :
    ¬((buildKiroRequest
        { system := some (.cstr "S"),
          messages := [{ role := "user", content := .cstr "U" }], tools := none }
        "claude-sonnet-4-5"
        { accessToken := "t", refreshToken := "r", clientID := "", clientSecret := "",
          authMethod := "", expiresAt := "", profileArn := "", region := "" }).currentMessage.content
        = "S\n\nU" ∧
      (buildKiroRequest
        { system := some (.cstr "S"),
          messages := [{ role := "user", content := .cstr "U" }], tools := none }
        "claude-sonnet-4-5"
        { accessToken := "t", refreshToken := "r", clientID := "", clientSecret := "",
          authMethod := "", expiresAt := "", profileArn := "", region := "" }).history
        = []) := by
  decide

/-- Claim C2, amended: with a non-empty system prompt and a user-headed
message list, `buildKiroRequest` prepends `system + "\n\n"` to the first
merged user message's text inside the first history entry, while the current
message is built from the last merged message unchanged; for system "S" and a
single non-empty user message "U" the request carries exactly one history
entry with content "S\n\nU" and current content "U". -/
theorem kiro_system_folding_amended (req : ClaudeRequest) (model : String)
    (tok : KiroTokenData)
    (hsp : systemPromptOf req ≠ "")
    (hfirst : req.messages.head?.map CMessage.role = some "user") :
    (∃ m0 rest, mergedOf req = m0 :: rest ∧ m0.role = "user" ∧
      (buildKiroRequest req model tok).history.head? =
        some (.userInput
          { content := systemPromptOf req ++ "\n\n" ++ m0.content,
            modelId := mapKiroModel model, origin := OriginAIEditor,
            images := m0.images, toolResults := dedupeToolResults m0.toolResults,
            tools := [] })) ∧
    (∀ S U : String, S ≠ "" → U ≠ "" →
      (buildKiroRequest
          { system := some (.cstr S), messages := [{ role := "user", content := .cstr U }],
            tools := none } model tok).currentMessage.content = U ∧
      (buildKiroRequest
          { system := some (.cstr S), messages := [{ role := "user", content := .cstr U }],
            tools := none } model tok).history =
        [.userInput
          { content := S ++ "\n\n" ++ U, modelId := mapKiroModel model,
            origin := OriginAIEditor, images := [], toolResults := [], tools := [] }]) := by
  constructor
  · have hhead := mergedOf_head_user req hfirst
    cases hm : mergedOf req with
    | nil => rw [hm] at hhead; simp at hhead
    | cons m0 rest =>
      rw [hm] at hhead
      have hrole : m0.role = "user" := by simpa using hhead
      refine ⟨m0, rest, rfl, hrole, ?_⟩
      have hhist : (buildKiroRequest req model tok).history =
          (historyPrefixOf (systemPromptOf req) (mapKiroModel model) (mergedOf req)).1 ++
            historyMidOf (mapKiroModel model) (mergedOf req)
              (historyPrefixOf (systemPromptOf req) (mapKiroModel model) (mergedOf req)).2 ++
            (currentRawOf (mergedOf req)).2.2.2 := rfl
      rw [hhist, hm, historyPrefixOf, if_pos ⟨hsp, hrole⟩]
      rfl
  · intro S U hS hU
    constructor
    · show kiroGuardedContent _ _ = U
      simp [mergedOf, processMessage, goString, dropTrailingBrace, mergeAdjacent,
        mergeRun, currentRawOf, kiroGuardedContent, hU]
    · have hhist : (buildKiroRequest
          { system := some (.cstr S), messages := [{ role := "user", content := .cstr U }],
            tools := none } model tok).history =
          (historyPrefixOf S (mapKiroModel model)
              [{ role := "user", content := U, toolUses := [], toolResults := [],
                 images := [] }]).1 ++
            historyMidOf (mapKiroModel model)
              [{ role := "user", content := U, toolUses := [], toolResults := [],
                 images := [] }]
              (historyPrefixOf S (mapKiroModel model)
                [{ role := "user", content := U, toolUses := [], toolResults := [],
                   images := [] }]).2 ++
            (currentRawOf
              [{ role := "user", content := U, toolUses := [], toolResults := [],
                 images := [] }]).2.2.2 := by
        simp [buildKiroRequest, mergedOf, processMessage, goString, dropTrailingBrace,
          mergeAdjacent, mergeRun, systemPromptOf]
      rw [hhist, historyPrefixOf, if_pos ⟨hS, rfl⟩]
      simp [historyMidOf, currentRawOf, dedupeToolResults, dedupeToolResultsAux]

/-- Claim C5: on the buffer holding the complete record
`\x7b"stop":true\x7d` followed by the unbalanced partial record
`\x7b"content":"abcdefghij`, the recognizer classifies and emits the
complete record, but the returned remaining buffer is `bcdefghij` — the
post-loop slice re-trims the already re-sliced tail by the stale
`searchStart`, dropping the first 13 bytes of the partial record instead of
carrying it over whole to the next call (a second, correctly parsed buffer
shows the two slices involved agree only when no complete record precedes
the partial one). -/
theorem kiro_parse_buffer_partial_tail_dropped :
    parseKiroStreamBuffer
        ("\x7b\"stop\":true\x7d\x7b\"content\":\"abcdefghij" : String).data =
      ([{ type := "toolUseStop", content := "", toolUse := none, toolInput := "",
          toolStop := true }], ("bcdefghij" : String).data) ∧
    ("bcdefghij" : String).data ≠ ("\x7b\"content\":\"abcdefghij" : String).data ∧
    parseKiroStreamBuffer ("\x7b\"content\":\"abcdefghij" : String).data =
      ([], ("\x7b\"content\":\"abcdefghij" : String).data) := by
  refine ⟨by decide, by decide, by decide⟩

/-- The source text estimate agrees with the spec-side ceil(len/4) (which is
already 0 on the empty string). -/
theorem countTextTokens_eq_spec (s : String) : countTextTokens s = specTextTokens s := by
  rw [countTextTokens, specTextTokens, ceilDiv4]
  by_cases h : s = ""
  · subst h; decide
  · rw [if_neg h]

/-- Text-token sums split over list append. -/
theorem sumTextTokens_append (a b : List String) :
    sumTextTokens (a ++ b) = sumTextTokens a + sumTextTokens b := by
  simp [sumTextTokens]

/-- Text-token sums split over flattening. -/
theorem sumTextTokens_flatten (ls : List (List String)) :
    sumTextTokens ls.flatten = (ls.map sumTextTokens).sum := by
  induction ls with
  | nil => rfl
  | cons a rest ih => simp [List.flatten_cons, sumTextTokens_append, ih]

mutual
/-- The source content estimate splits into the spec-side text sum plus the
spec-side structural overhead. -/
theorem estimateContent_eq_spec : ∀ c : CContent,
    estimateContentTokens c = sumTextTokens (specContentTexts c) + specContentOverhead c
  | .cmissing => by
    simp [estimateContentTokens, specContentTexts, specContentOverhead, sumTextTokens]
  | .cstr s => by
    simp [estimateContentTokens, specContentTexts, specContentOverhead, sumTextTokens,
      countTextTokens_eq_spec]
  | .cblocks bs => by
    rw [estimateContentTokens, estimateBlockList_eq_spec bs]; rfl
  | .cobj raw => by
    simp [estimateContentTokens, specContentTexts, specContentOverhead, sumTextTokens,
      countTextTokens_eq_spec]

/-- Block-list version of `estimateContent_eq_spec`. -/
theorem estimateBlockList_eq_spec : ∀ bs : List CBlock,
    estimateBlockListTokens bs =
      sumTextTokens (specBlockListTexts bs) + specBlockListOverhead bs
  | [] => by
    simp [estimateBlockListTokens, specBlockListTexts, specBlockListOverhead, sumTextTokens]
  | b :: rest => by
    rw [estimateBlockListTokens, estimateBlock_eq_spec b, estimateBlockList_eq_spec rest,
      specBlockListTexts, specBlockListOverhead, sumTextTokens_append]
    omega

/-- Per-block version of `estimateContent_eq_spec`. -/
theorem estimateBlock_eq_spec : ∀ b : CBlock,
    estimateBlockTokens b = sumTextTokens (specBlockTexts b) + specBlockOverhead b
  | .text s => by
    simp [estimateBlockTokens, specBlockTexts, specBlockOverhead, sumTextTokens,
      countTextTokens_eq_spec]
  | .image _ _ => by
    simp [estimateBlockTokens, specBlockTexts, specBlockOverhead, sumTextTokens]
  | .imageUrl _ => by
    simp [estimateBlockTokens, specBlockTexts, specBlockOverhead, sumTextTokens]
  | .toolUse i name input => by
    cases input <;>
      simp [estimateBlockTokens, specBlockTexts, specBlockOverhead, sumTextTokens,
        countTextTokens_eq_spec] <;> omega
  | .toolResult id c => by
    rw [estimateBlockTokens, estimateContent_eq_spec c, specBlockTexts, specBlockOverhead]
    simp [sumTextTokens, countTextTokens_eq_spec]
    omega
  | .thinking s => by
    simp [estimateBlockTokens, specBlockTexts, specBlockOverhead, sumTextTokens,
      countTextTokens_eq_spec]
  | .other raw => by
    simp [estimateBlockTokens, specBlockTexts, specBlockOverhead, sumTextTokens,
      countTextTokens_eq_spec]
end

/-- Message-list part of the estimation formula. -/
theorem estimateMessages_eq (msgs : List CMessage) :
    (msgs.map fun m => 4 + 1 + estimateContentTokens m.content).sum =
      5 * msgs.length +
      sumTextTokens ((msgs.map fun m => specContentTexts m.content).flatten) +
      (msgs.map fun m => specContentOverhead m.content).sum := by
  induction msgs with
  | nil => rfl
  | cons m rest ih =>
    simp only [List.map_cons, List.sum_cons, List.flatten_cons, List.length_cons,
      sumTextTokens_append, ih, estimateContent_eq_spec m.content]
    ring

/-- Tool-definition part of the estimation formula, for a fixed per-tool
overhead. -/
theorem estimateTools_eq (ts : List CTool) (per : Nat) :
    (ts.map fun t =>
        countTextTokens t.name + countTextTokens t.description +
          (match t.input_schema with | some raw => countTextTokens raw | none => 0) +
          per).sum =
      sumTextTokens ((ts.map fun t =>
        t.name :: t.description ::
          (match t.input_schema with | some raw => [raw] | none => [])).flatten) +
      per * ts.length := by
  induction ts with
  | nil => rfl
  | cons t rest ih =>
    have hschema : (match t.input_schema with | some raw => countTextTokens raw | none => 0)
        = sumTextTokens (match t.input_schema with | some raw => [raw] | none => []) := by
      cases t.input_schema <;> simp [sumTextTokens, countTextTokens_eq_spec]
    simp only [List.map_cons, List.sum_cons, List.flatten_cons, List.length_cons,
      sumTextTokens_append, ih, hschema]
    simp only [sumTextTokens, List.map_cons, List.sum_cons, countTextTokens_eq_spec]
    ring

/-- Claim C8: the source token estimator computes exactly the spec formula:
the sum of ceil(len/4) over all counted texts plus the fixed structural
overheads (4 per request, 2 for a present system prompt, 4 + 1 per message,
0/100/180 base and 50/30/20 per tool for 1 / at-most-5 / more-than-5 tools,
1500 per image, and 4 per tool_use / tool_result block plus their serialized
arguments). -/
theorem kiro_token_estimation_formula (req : ClaudeRequest) :
    estimateInputTokens req = specEstimateInputTokens req := by
  rw [estimateInputTokens, specEstimateInputTokens]
  rcases req with ⟨sys, msgs, tools⟩
  simp only
  rw [estimateMessages_eq]
  cases sys with
  | none =>
    cases tools with
    | none =>
      dsimp only
      simp only [sumTextTokens_append]
      simp [sumTextTokens]
      omega
    | some ts =>
      dsimp only
      rw [show ((if ts.length = 1 then ((0 : Nat), (50 : Nat))
            else if ts.length ≤ 5 then (100, 30) else (180, 20))) =
          specToolBasePer ts.length from rfl]
      rw [estimateTools_eq ts (specToolBasePer ts.length).2]
      simp only [sumTextTokens_append]
      simp [sumTextTokens]
      omega
  | some c =>
    cases tools with
    | none =>
      dsimp only
      simp only [sumTextTokens_append]
      simp [sumTextTokens, countTextTokens_eq_spec]
      omega
    | some ts =>
      dsimp only
      rw [show ((if ts.length = 1 then ((0 : Nat), (50 : Nat))
            else if ts.length ≤ 5 then (100, 30) else (180, 20))) =
          specToolBasePer ts.length from rfl]
      rw [estimateTools_eq ts (specToolBasePer ts.length).2]
      simp only [sumTextTokens_append]
      simp [sumTextTokens, countTextTokens_eq_spec]
      omega

/-- Witness for the amended C2 theorem at system "S" and user message "U". -/
theorem kiro_system_folding_amended_witness :
    (buildKiroRequest
        { system := some (.cstr "S"),
          messages := [{ role := "user", content := .cstr "U" }], tools := none } "m"
        { accessToken := "t", refreshToken := "r", clientID := "", clientSecret := "",
          authMethod := "", expiresAt := "", profileArn := "", region := "" }).currentMessage.content
      = "U" ∧
    (buildKiroRequest
        { system := some (.cstr "S"),
          messages := [{ role := "user", content := .cstr "U" }], tools := none } "m"
        { accessToken := "t", refreshToken := "r", clientID := "", clientSecret := "",
          authMethod := "", expiresAt := "", profileArn := "", region := "" }).history
      =
      [.userInput
        { content := "S\n\nU", modelId := mapKiroModel "m", origin := OriginAIEditor,
          images := [], toolResults := [], tools := [] }] :=
  (kiro_system_folding_amended
      { system := some (.cstr "S"),
        messages := [{ role := "user", content := .cstr "U" }], tools := none } "m"
      { accessToken := "t", refreshToken := "r", clientID := "", clientSecret := "",
        authMethod := "", expiresAt := "", profileArn := "", region := "" }
      (by decide) rfl).2 "S" "U" (by decide) (by decide)

end CLIProxy
